import Mathlib

/-!
Verification of the article-atlas data model (`src/backend/schemas.py`).

The pydantic models are shallowly embedded: a Python string is a list of
Unicode code points (`PyStr`), each model becomes a structure, and pydantic's
construction-time validation becomes a fallible factory `mk_checked` per model
returning `Except PyStr α` with the error message raised by the source's
validator.  Field validators run in field declaration order, and a validator
that reads `info.data` sees a field only when its validation succeeded, which
the sequential `Except` pipeline models.  Fields whose pydantic declaration
carries both `min_length=1` and a non-empty validator are folded into the
validator's check (both reject exactly the inputs the model rejects); the
validator's message is used.  `default_factory` identifiers and timestamps are
modelled by the caller supplying the value explicitly.
-/

namespace ArticleAtlas

/-- A Python string, modelled as its sequence of Unicode code points. -/
abbrev PyStr := List Nat

/-- Embeds a Lean string literal as a `PyStr`. -/
def str (s : String) : PyStr := s.toList.map Char.toNat

/-- Python `str.strip` whitespace test (ASCII whitespace code points). -/
def isPySpace (c : Nat) : Bool :=
  c == 32 || c == 9 || c == 10 || c == 13 || c == 11 || c == 12

/-- Python `s.strip()`: drop whitespace from both ends. -/
def pyStrip (s : PyStr) : PyStr :=
  ((s.dropWhile isPySpace).reverse.dropWhile isPySpace).reverse

/-- Python `s.upper()` on a code point (ASCII case mapping). -/
def pyUpperChar (c : Nat) : Nat := if 97 ≤ c ∧ c ≤ 122 then c - 32 else c

/-- Python `s.upper()`. -/
def pyUpper (s : PyStr) : PyStr := s.map pyUpperChar

/-- An open `Dict[str, Any]` value (the property maps are never inspected
by the validators, only carried through). -/
inductive PyAny where
  | str (s : PyStr)
  | int (n : Int)
  | bool (b : Bool)
  | none
deriving DecidableEq, Repr

/-- Model of `Dict[str, Any]`. -/
abbrev PyDict := List (PyStr × PyAny)

/-- Model of `class ArticleMetadata` (schemas.py lines 8-19). -/
structure ArticleMetadata where
  author : Option PyStr
  publish_date : Option PyStr
  word_count : Option Int
  reading_time : Option Int
  tags : List PyStr
  categories : List PyStr
deriving DecidableEq, Repr

/-- Model of `ArticleMetadata.clean_list_items` (line 18):
`[item.strip() for item in v if item and item.strip()]`. -/
def clean_list_items (v : List PyStr) : List PyStr :=
  (v.filter (fun item => !item.isEmpty && !(pyStrip item).isEmpty)).map pyStrip

/-- Constructor `ArticleMetadata(...)`: pydantic validates fields in declaration order;
`word_count` and `reading_time` carry `ge=0`, tags and categories are cleaned
by `clean_list_items` (which never fails). -/
def ArticleMetadata.mk_checked (author publish_date : Option PyStr)
    (word_count reading_time : Option Int) (tags categories : List PyStr) :
    Except PyStr ArticleMetadata :=
  if word_count.any (fun n => decide (n < 0)) then
    .error (str "Input should be greater than or equal to 0")
  else if reading_time.any (fun n => decide (n < 0)) then
    .error (str "Input should be greater than or equal to 0")
  else
    .ok ⟨author, publish_date, word_count, reading_time,
         clean_list_items tags, clean_list_items categories⟩

/-- Model of `class ArticleContent` (lines 23-43). `publish_date : Optional[datetime]`
is modelled opaquely as an optional natural number. -/
structure ArticleContent where
  url : PyStr
  title : PyStr
  text : PyStr
  author : Option PyStr
  publish_date : Option Nat
  metadata : PyDict
deriving DecidableEq, Repr

/-- The shared non-empty validator body (`if not v or not v.strip()`),
parameterised by the message it raises; returns the stripped value. -/
def validate_non_empty (msg : PyStr) (v : PyStr) : Except PyStr PyStr :=
  if v = [] ∨ pyStrip v = [] then .error msg else .ok (pyStrip v)

/-- Constructor `ArticleContent(...)`: `validate_url` on `url` (message
"URL cannot be empty"), `validate_non_empty` on `title` and `text`. -/
def ArticleContent.mk_checked (url title text : PyStr) (author : Option PyStr)
    (publish_date : Option Nat) (metadata : PyDict) :
    Except PyStr ArticleContent :=
  match validate_non_empty (str "URL cannot be empty") url with
  | .error e => .error e
  | .ok u =>
    match validate_non_empty (str "Field cannot be empty") title with
    | .error e => .error e
    | .ok ti =>
      match validate_non_empty (str "Field cannot be empty") text with
      | .error e => .error e
      | .ok tx => .ok ⟨u, ti, tx, author, publish_date, metadata⟩

/-- Model of `class TextChunk` (lines 47-59). `chunk_id`'s uuid4 default is modelled by
the caller supplying the identifier; no validator touches `chunk_id` or
`source_url`. -/
structure TextChunk where
  chunk_id : PyStr
  text : PyStr
  position : Int
  token_count : Int
  source_url : PyStr
deriving DecidableEq, Repr

/-- Constructor `TextChunk(...)`: `validate_text` on `text` (message
"Text chunk cannot be empty"), `ge=0` bounds on `position` and
`token_count`; `chunk_id` and `source_url` pass through unvalidated. -/
def TextChunk.mk_checked (chunk_id text : PyStr) (position token_count : Int)
    (source_url : PyStr) : Except PyStr TextChunk :=
  match validate_non_empty (str "Text chunk cannot be empty") text with
  | .error e => .error e
  | .ok tx =>
    if position < 0 then
      .error (str "Input should be greater than or equal to 0")
    else if token_count < 0 then
      .error (str "Input should be greater than or equal to 0")
    else
      .ok ⟨chunk_id, tx, position, token_count, source_url⟩

/-- Model of `class Entity` (lines 63-75). The uuid4 `id` default is modelled by the
caller supplying the identifier; no validator touches `id`. -/
structure Entity where
  id : PyStr
  name : PyStr
  type : PyStr
  properties : PyDict
  mentions : Int
deriving DecidableEq, Repr

/-- Constructor `Entity(...)`: `validate_non_empty` on `name` and `type`, `ge=1` on
`mentions`; `id` passes through unvalidated. -/
def Entity.mk_checked (id name type_ : PyStr) (properties : PyDict)
    (mentions : Int) : Except PyStr Entity :=
  match validate_non_empty (str "Field cannot be empty") name with
  | .error e => .error e
  | .ok n =>
    match validate_non_empty (str "Field cannot be empty") type_ with
    | .error e => .error e
    | .ok t =>
      if mentions < 1 then
        .error (str "Input should be greater than or equal to 1")
      else
        .ok ⟨id, n, t, properties, mentions⟩

/-- Model of `class Relationship` (lines 79-91). The uuid4 `id` default is modelled by
the caller supplying the identifier; no validator touches `id`. The only
validator is `validate_non_empty` on `source`, `target`,
`relationship_type`. -/
structure Relationship where
  id : PyStr
  source : PyStr
  target : PyStr
  relationship_type : PyStr
  properties : PyDict
deriving DecidableEq, Repr

/-- Constructor `Relationship(...)`: `validate_non_empty` on `source`, `target` and
`relationship_type` in field order; `id` passes through unvalidated. -/
def Relationship.mk_checked (id source target relationship_type : PyStr)
    (properties : PyDict) : Except PyStr Relationship :=
  match validate_non_empty (str "Field cannot be empty") source with
  | .error e => .error e
  | .ok s =>
    match validate_non_empty (str "Field cannot be empty") target with
    | .error e => .error e
    | .ok t =>
      match validate_non_empty (str "Field cannot be empty") relationship_type with
      | .error e => .error e
      | .ok rt => .ok ⟨id, s, t, rt, properties⟩

/-- Model of `class GraphExtraction` (lines 95-98): three plain fields, no
validators. -/
structure GraphExtraction where
  entities : List Entity
  relationships : List Relationship
  chunk_id : PyStr
deriving DecidableEq, Repr

/-- Constructor `GraphExtraction(...)`: no validation at all. -/
def GraphExtraction.mk_checked (entities : List Entity)
    (relationships : List Relationship) (chunk_id : PyStr) :
    Except PyStr GraphExtraction :=
  .ok ⟨entities, relationships, chunk_id⟩

/-- Model of `class GraphData` (lines 102-125). -/
structure GraphData where
  entities : List Entity
  relationships : List Relationship
  metadata : PyDict
deriving DecidableEq, Repr

/-- Model of `GraphData.validate_unique_entities` (lines 108-113):
`ids = [e.id for e in v]; if len(ids) != len(set(ids)): raise`.
`len(set(ids))` is the number of distinct identifiers, i.e.
`ids.dedup.length`. -/
def validate_unique_entities (v : List Entity) : Except PyStr (List Entity) :=
  let ids := v.map (·.id)
  if ids.length ≠ ids.dedup.length then
    .error (str "Duplicate entity IDs found")
  else
    .ok v

/-- The `for rel in v` loop of `GraphData.validate_relationship_references`
(lines 120-124): source checked before target, first offender raises. -/
def validate_relationship_references (entity_ids : List PyStr) :
    List Relationship → Except PyStr Unit
  | [] => .ok ()
  | rel :: rest =>
    if rel.source ∉ entity_ids then
      .error (str "Invalid source entity: " ++ rel.source)
    else if rel.target ∉ entity_ids then
      .error (str "Invalid target entity: " ++ rel.target)
    else
      validate_relationship_references entity_ids rest

/-- Constructor `GraphData(...)`: `validate_unique_entities` runs first (field order);
`validate_relationship_references` reads `info.data['entities']`, which is
present exactly when entity validation succeeded, so it is sequenced after. -/
def GraphData.mk_checked (entities : List Entity)
    (relationships : List Relationship) (metadata : PyDict) :
    Except PyStr GraphData :=
  match validate_unique_entities entities with
  | .error e => .error e
  | .ok es =>
    match validate_relationship_references (es.map (·.id)) relationships with
    | .error e => .error e
    | .ok _ => .ok ⟨es, relationships, metadata⟩

/-- Modelled from the spec: `merge_extraction(graph, extraction)` appears in
spec §4.3 but has no implementation under `src/`; per the spec it appends
`extraction.entities` to the node set and `extraction.relationships` to the
edge set, re-validating node-identifier uniqueness and edge referential
integrity against the post-append node set. -/
def merge_extraction (graph : GraphData) (extraction : GraphExtraction) :
    Except PyStr GraphData :=
  GraphData.mk_checked (graph.entities ++ extraction.entities)
    (graph.relationships ++ extraction.relationships) graph.metadata

/-- Model of `class GraphSchema` (lines 129-147). -/
structure GraphSchema where
  entity_types : List PyStr
  relationship_types : List PyStr
  extraction_prompt : PyStr
deriving DecidableEq, Repr

/-- Model of `GraphSchema.validate_unique_types` (lines 135-140):
`cleaned = [item.strip().upper() for item in v if item and item.strip()]`,
then reject when `len(cleaned) != len(set(cleaned))`. -/
def validate_unique_types (v : List PyStr) : Except PyStr (List PyStr) :=
  let cleaned :=
    (v.filter (fun item => !item.isEmpty && !(pyStrip item).isEmpty)).map
      (fun item => pyUpper (pyStrip item))
  if cleaned.length ≠ cleaned.dedup.length then
    .error (str "Duplicate types found")
  else
    .ok cleaned

/-- Constructor `GraphSchema(...)`: the same `validate_unique_types` on `entity_types`
and on `relationship_types` (field order), then `validate_prompt` on
`extraction_prompt`. -/
def GraphSchema.mk_checked (entity_types relationship_types : List PyStr)
    (extraction_prompt : PyStr) : Except PyStr GraphSchema :=
  match validate_unique_types entity_types with
  | .error e => .error e
  | .ok et =>
    match validate_unique_types relationship_types with
    | .error e => .error e
    | .ok rt =>
      match validate_non_empty (str "Extraction prompt cannot be empty")
          extraction_prompt with
      | .error e => .error e
      | .ok p => .ok ⟨et, rt, p⟩

/-- Model of `class ScrapingFailure` (lines 151-157): six plain fields, no validators;
`timestamp`'s `datetime.now` default is modelled by the caller supplying it
as an opaque natural number. -/
structure ScrapingFailure where
  timestamp : Nat
  url : PyStr
  domain : PyStr
  failure_type : PyStr
  http_status : Option Int
  error_message : Option PyStr
deriving DecidableEq, Repr

/-- Constructor `ScrapingFailure(...)`: no validation at all. -/
def ScrapingFailure.mk_checked (timestamp : Nat)
    (url domain failure_type : PyStr) (http_status : Option Int)
    (error_message : Option PyStr) : Except PyStr ScrapingFailure :=
  .ok ⟨timestamp, url, domain, failure_type, http_status, error_message⟩

/-! Concrete sample values used by several claims. -/

/-- Sample entity with identifier `"e1"`. -/
def entE1 : Entity := ⟨str "e1", str "Alice", str "PERSON", [], 1⟩

/-- Sample entity with identifier `"e2"`. -/
def entE2 : Entity := ⟨str "e2", str "Bob", str "PERSON", [], 1⟩

/-- A second entity that also carries identifier `"e1"` but differs in every
other field. -/
def entE1dup : Entity := ⟨str "e1", str "Acme", str "ORG", [], 2⟩

/-- Relationship `e1 → e2` of type `MENTIONS`. -/
def relE1E2 : Relationship := ⟨str "r1", str "e1", str "e2", str "MENTIONS", []⟩

/-- Relationship whose source `"e99"` dangles. -/
def relBadSource : Relationship := ⟨str "r2", str "e99", str "e1", str "REL", []⟩

/-- Relationship whose target `"e99"` dangles. -/
def relBadTarget : Relationship := ⟨str "r3", str "e1", str "e99", str "REL", []⟩

/-! Helper lemmas about the validators. -/

lemma pyStrip_nil : pyStrip [] = [] := rfl

lemma validate_non_empty_ok (msg : PyStr) {v : PyStr} (h : pyStrip v ≠ []) :
    validate_non_empty msg v = .ok (pyStrip v) := by
  unfold validate_non_empty
  rw [if_neg]
  rintro (rfl | hv)
  · exact h pyStrip_nil
  · exact h hv

lemma validate_non_empty_error (msg : PyStr) {v : PyStr}
    (h : pyStrip v = []) : validate_non_empty msg v = .error msg := by
  unfold validate_non_empty
  rw [if_pos (Or.inr h)]

lemma length_eq_length_dedup_iff {α : Type} [DecidableEq α] (l : List α) :
    l.length = l.dedup.length ↔ l.Nodup := by
  constructor
  · intro h
    exact List.dedup_eq_self.mp (l.dedup_sublist.eq_of_length h.symm)
  · intro h
    rw [List.dedup_eq_self.mpr h]

lemma validate_unique_entities_ok {v : List Entity}
    (h : (v.map (·.id)).Nodup) : validate_unique_entities v = .ok v := by
  unfold validate_unique_entities
  rw [if_neg (not_not_intro ((length_eq_length_dedup_iff _).mpr h))]

lemma validate_unique_entities_error {v : List Entity}
    (h : ¬ (v.map (·.id)).Nodup) :
    validate_unique_entities v = .error (str "Duplicate entity IDs found") := by
  unfold validate_unique_entities
  rw [if_pos (fun he => h ((length_eq_length_dedup_iff _).mp he))]

lemma validate_relationship_references_ok_iff (ids : List PyStr)
    (rs : List Relationship) :
    validate_relationship_references ids rs = .ok () ↔
      ∀ r ∈ rs, r.source ∈ ids ∧ r.target ∈ ids := by
  induction rs with
  | nil => simp [validate_relationship_references]
  | cons r rest ih =>
    unfold validate_relationship_references
    by_cases hs : r.source ∈ ids
    · by_cases ht : r.target ∈ ids
      · rw [if_neg (not_not_intro hs), if_neg (not_not_intro ht)]
        rw [ih]
        constructor
        · intro h r' hr'
          rcases List.mem_cons.mp hr' with rfl | hmem
          · exact ⟨hs, ht⟩
          · exact h r' hmem
        · intro h r' hr'
          exact h r' (List.mem_cons_of_mem r hr')
      · rw [if_neg (not_not_intro hs), if_pos ht]
        constructor
        · intro h
          exact Except.noConfusion h
        · intro h
          exact absurd (h r (List.mem_cons_self r rest)).2 ht
    · rw [if_pos hs]
      constructor
      · intro h
        exact Except.noConfusion h
      · intro h
        exact absurd (h r (List.mem_cons_self r rest)).1 hs

lemma validate_relationship_references_error_of_dangling (ids : List PyStr)
    (rs : List Relationship)
    (h : ∃ r ∈ rs, r.source ∉ ids ∨ r.target ∉ ids) :
    ∃ bad, bad ∉ ids ∧
      (validate_relationship_references ids rs =
        .error (str "Invalid source entity: " ++ bad) ∨
       validate_relationship_references ids rs =
        .error (str "Invalid target entity: " ++ bad)) := by
  induction rs with
  | nil => simp at h
  | cons r rest ih =>
    unfold validate_relationship_references
    by_cases hs : r.source ∈ ids
    · by_cases ht : r.target ∈ ids
      · rw [if_neg (not_not_intro hs), if_neg (not_not_intro ht)]
        apply ih
        rcases h with ⟨r', hr', hd⟩
        rcases List.mem_cons.mp hr' with rfl | hmem
        · rcases hd with h1 | h2
          · exact absurd hs h1
          · exact absurd ht h2
        · exact ⟨r', hmem, hd⟩
      · rw [if_neg (not_not_intro hs), if_pos ht]
        exact ⟨r.target, ht, Or.inr rfl⟩
    · rw [if_pos hs]
      exact ⟨r.source, hs, Or.inl rfl⟩

lemma validate_relationship_references_first_source (ids : List PyStr)
    (pre : List Relationship) (r : Relationship) (rest : List Relationship)
    (hpre : ∀ r' ∈ pre, r'.source ∈ ids ∧ r'.target ∈ ids)
    (hs : r.source ∉ ids) :
    validate_relationship_references ids (pre ++ r :: rest) =
      .error (str "Invalid source entity: " ++ r.source) := by
  induction pre with
  | nil =>
    show validate_relationship_references ids (r :: rest) = _
    unfold validate_relationship_references
    rw [if_pos hs]
  | cons p ps ih =>
    have hp := hpre p (List.mem_cons_self p ps)
    show validate_relationship_references ids (p :: (ps ++ r :: rest)) = _
    unfold validate_relationship_references
    rw [if_neg (not_not_intro hp.1), if_neg (not_not_intro hp.2)]
    exact ih (fun r' hr' => hpre r' (List.mem_cons_of_mem p hr'))

lemma validate_relationship_references_first_target (ids : List PyStr)
    (pre : List Relationship) (r : Relationship) (rest : List Relationship)
    (hpre : ∀ r' ∈ pre, r'.source ∈ ids ∧ r'.target ∈ ids)
    (hs : r.source ∈ ids) (ht : r.target ∉ ids) :
    validate_relationship_references ids (pre ++ r :: rest) =
      .error (str "Invalid target entity: " ++ r.target) := by
  induction pre with
  | nil =>
    show validate_relationship_references ids (r :: rest) = _
    unfold validate_relationship_references
    rw [if_neg (not_not_intro hs), if_pos ht]
  | cons p ps ih =>
    have hp := hpre p (List.mem_cons_self p ps)
    show validate_relationship_references ids (p :: (ps ++ r :: rest)) = _
    unfold validate_relationship_references
    rw [if_neg (not_not_intro hp.1), if_neg (not_not_intro hp.2)]
    exact ih (fun r' hr' => hpre r' (List.mem_cons_of_mem p hr'))

lemma GraphData.mk_checked_ok_shape {es : List Entity}
    {rs : List Relationship} {md : PyDict} {g : GraphData}
    (h : GraphData.mk_checked es rs md = .ok g) : g = ⟨es, rs, md⟩ := by
  by_cases hn : (es.map (·.id)).Nodup
  · simp only [GraphData.mk_checked, validate_unique_entities_ok hn] at h
    cases hv : validate_relationship_references (es.map (·.id)) rs with
    | error e =>
      rw [hv] at h
      exact Except.noConfusion h
    | ok u =>
      cases u
      rw [hv] at h
      cases h
      rfl
  · simp only [GraphData.mk_checked, validate_unique_entities_error hn] at h
    exact Except.noConfusion h

lemma GraphData.mk_checked_ok_nodup {es : List Entity}
    {rs : List Relationship} {md : PyDict} {g : GraphData}
    (h : GraphData.mk_checked es rs md = .ok g) : (es.map (·.id)).Nodup := by
  by_contra hn
  simp only [GraphData.mk_checked, validate_unique_entities_error hn] at h
  exact Except.noConfusion h

lemma GraphData.mk_checked_ok_refs {es : List Entity}
    {rs : List Relationship} {md : PyDict} {g : GraphData}
    (h : GraphData.mk_checked es rs md = .ok g) :
    ∀ r ∈ rs, r.source ∈ es.map (·.id) ∧ r.target ∈ es.map (·.id) := by
  have hn := GraphData.mk_checked_ok_nodup h
  simp only [GraphData.mk_checked, validate_unique_entities_ok hn] at h
  cases hv : validate_relationship_references (es.map (·.id)) rs with
  | error e =>
    rw [hv] at h
    exact Except.noConfusion h
  | ok u =>
    cases u
    exact (validate_relationship_references_ok_iff _ _).mp hv

lemma GraphData.mk_checked_ok_of (es : List Entity) (rs : List Relationship)
    (md : PyDict) (hn : (es.map (·.id)).Nodup)
    (hr : ∀ r ∈ rs, r.source ∈ es.map (·.id) ∧ r.target ∈ es.map (·.id)) :
    GraphData.mk_checked es rs md = .ok ⟨es, rs, md⟩ := by
  simp only [GraphData.mk_checked, validate_unique_entities_ok hn,
    (validate_relationship_references_ok_iff _ _).mpr hr]

lemma GraphData.mk_checked_error_of_not_nodup {es : List Entity}
    (rs : List Relationship) (md : PyDict)
    (hn : ¬ (es.map (·.id)).Nodup) :
    GraphData.mk_checked es rs md =
      .error (str "Duplicate entity IDs found") := by
  simp only [GraphData.mk_checked, validate_unique_entities_error hn]

lemma GraphData.mk_checked_error_of_dangling {es : List Entity}
    {rs : List Relationship} (md : PyDict)
    (hn : (es.map (·.id)).Nodup)
    (h : ∃ r ∈ rs, r.source ∉ es.map (·.id) ∨ r.target ∉ es.map (·.id)) :
    ∃ bad, bad ∉ es.map (·.id) ∧
      (GraphData.mk_checked es rs md =
        .error (str "Invalid source entity: " ++ bad) ∨
       GraphData.mk_checked es rs md =
        .error (str "Invalid target entity: " ++ bad)) := by
  obtain ⟨bad, hbad, hcase⟩ :=
    validate_relationship_references_error_of_dangling (es.map (·.id)) rs h
  refine ⟨bad, hbad, ?_⟩
  simp only [GraphData.mk_checked, validate_unique_entities_ok hn]
  rcases hcase with h1 | h2
  · rw [h1]
    exact Or.inl rfl
  · rw [h2]
    exact Or.inr rfl

lemma pyUpperChar_idem (c : Nat) :
    pyUpperChar (pyUpperChar c) = pyUpperChar c := by
  unfold pyUpperChar
  split_ifs <;> omega

lemma pyUpper_idem (s : PyStr) : pyUpper (pyUpper s) = pyUpper s := by
  unfold pyUpper
  rw [List.map_map]
  exact List.map_congr_left (fun c _ => pyUpperChar_idem c)

lemma validate_unique_types_ok_iff (v : List PyStr) (out : List PyStr) :
    validate_unique_types v = .ok out ↔
      (out = (v.filter
          (fun item => !item.isEmpty && !(pyStrip item).isEmpty)).map
            (fun item => pyUpper (pyStrip item)) ∧ out.Nodup) := by
  unfold validate_unique_types
  by_cases hd : ((v.filter
      (fun item => !item.isEmpty && !(pyStrip item).isEmpty)).map
        (fun item => pyUpper (pyStrip item))).Nodup
  · rw [if_neg (not_not_intro ((length_eq_length_dedup_iff _).mpr hd))]
    constructor
    · intro h
      cases h
      exact ⟨rfl, hd⟩
    · intro h
      rw [h.1]
  · rw [if_pos (fun he => hd ((length_eq_length_dedup_iff _).mp he))]
    constructor
    · intro h
      exact Except.noConfusion h
    · intro h
      exact absurd (h.1 ▸ h.2) hd

lemma validate_unique_types_error {v : List PyStr}
    (hd : ¬ ((v.filter
      (fun item => !item.isEmpty && !(pyStrip item).isEmpty)).map
        (fun item => pyUpper (pyStrip item))).Nodup) :
    validate_unique_types v = .error (str "Duplicate types found") := by
  unfold validate_unique_types
  rw [if_pos (fun he => hd ((length_eq_length_dedup_iff _).mp he))]

/-! Claim theorems. -/

/-- C1 counterexample: constructing a `Relationship` whose source and target
are both the non-empty identifier `"X"` succeeds, and the produced value has
`source = target` — refuting the claim that such a construction always fails
with a self-reference error and that no such value is ever produced. -/
theorem C1_counterexample :
    Relationship.mk_checked (str "r1") (str "X") (str "X") (str "KNOWS") [] =
      .ok ⟨str "r1", str "X", str "X", str "KNOWS", []⟩ ∧
    (⟨str "r1", str "X", str "X", str "KNOWS", []⟩ : Relationship).source =
      (⟨str "r1", str "X", str "X", str "KNOWS", []⟩ : Relationship).target :=
  ⟨rfl, rfl⟩

/-- C1 (amended): `Relationship` construction performs no self-reference
check: for any identifier `X` that is non-empty after stripping (and any
valid relationship type), `Relationship(source=X, target=X, ...)` succeeds
and yields a value whose source equals its target. -/
theorem C1_self_reference_accepted (id X rt : PyStr) (props : PyDict)
    (hX : pyStrip X ≠ []) (hrt : pyStrip rt ≠ []) :
    ∃ r : Relationship,
      Relationship.mk_checked id X X rt props = .ok r ∧
        r.source = r.target := by
  refine ⟨⟨id, pyStrip X, pyStrip X, pyStrip rt, props⟩, ?_, rfl⟩
  simp only [Relationship.mk_checked, validate_non_empty_ok _ hX,
    validate_non_empty_ok _ hrt]

/-- C1 witness: the amended theorem applied at `X = "X"`. -/
theorem C1_witness :
    ∃ r : Relationship,
      Relationship.mk_checked (str "r1") (str "X") (str "X") (str "KNOWS")
        [] = .ok r ∧ r.source = r.target :=
  C1_self_reference_accepted (str "r1") (str "X") (str "KNOWS") []
    (by decide) (by decide)

/-- C5: a `GraphData` whose entity list contains two entities sharing an
identifier fails with the duplicate-identifier error, whatever the entities'
other fields and the other arguments; and every successfully constructed
`GraphData` has pairwise-distinct entity identifiers. -/
theorem C5_duplicate_entity_ids :
    (∀ (l₁ l₂ l₃ : List Entity) (a b : Entity) (rs : List Relationship)
        (md : PyDict), a.id = b.id →
        GraphData.mk_checked (l₁ ++ a :: l₂ ++ b :: l₃) rs md =
          .error (str "Duplicate entity IDs found")) ∧
    (∀ (es : List Entity) (rs : List Relationship) (md : PyDict)
        (g : GraphData), GraphData.mk_checked es rs md = .ok g →
        (g.entities.map (·.id)).Nodup) := by
  constructor
  · intro l₁ l₂ l₃ a b rs md hab
    apply GraphData.mk_checked_error_of_not_nodup
    intro hn
    simp only [List.map_append, List.map_cons] at hn
    have hdisj := (List.nodup_append.mp hn).2.2
    apply hdisj (List.mem_append_right _ (List.mem_cons_self _ _))
    rw [hab]
    exact List.mem_cons_self _ _
  · intro es rs md g h
    have hshape := GraphData.mk_checked_ok_shape h
    have hn := GraphData.mk_checked_ok_nodup h
    rw [hshape]
    exact hn

/-- C5 witness: the theorem applied to two concrete entities sharing
identifier `"e1"` (first part) and to a concrete successful construction
(second part). -/
theorem C5_witness :
    GraphData.mk_checked ([] ++ entE1 :: [] ++ entE1dup :: []) [] [] =
      .error (str "Duplicate entity IDs found") ∧
    ((⟨[entE1], [], []⟩ : GraphData).entities.map (·.id)).Nodup :=
  ⟨C5_duplicate_entity_ids.1 [] [] [] entE1 entE1dup [] [] rfl,
   C5_duplicate_entity_ids.2 [entE1] [] [] ⟨[entE1], [], []⟩ rfl⟩

/-- C6: a `GraphData` containing a relationship whose source or target is
absent from the entity-identifier list always fails; and whenever the entity
identifiers are themselves distinct (so that the duplicate check does not
preempt), the failure is a dangling-reference error naming an identifier
that is missing from the node set. -/
theorem C6_dangling_reference (es : List Entity) (rs : List Relationship)
    (md : PyDict) (r : Relationship) (hr : r ∈ rs)
    (hd : r.source ∉ es.map (·.id) ∨ r.target ∉ es.map (·.id)) :
    (∃ msg, GraphData.mk_checked es rs md = .error msg) ∧
    ((es.map (·.id)).Nodup →
      ∃ bad, bad ∉ es.map (·.id) ∧
        (GraphData.mk_checked es rs md =
          .error (str "Invalid source entity: " ++ bad) ∨
         GraphData.mk_checked es rs md =
          .error (str "Invalid target entity: " ++ bad))) := by
  constructor
  · by_cases hn : (es.map (·.id)).Nodup
    · obtain ⟨bad, _, hc⟩ :=
        GraphData.mk_checked_error_of_dangling md hn ⟨r, hr, hd⟩
      rcases hc with h1 | h2
      · exact ⟨_, h1⟩
      · exact ⟨_, h2⟩
    · exact ⟨_, GraphData.mk_checked_error_of_not_nodup rs md hn⟩
  · intro hn
    exact GraphData.mk_checked_error_of_dangling md hn ⟨r, hr, hd⟩

/-- C6 witness: the theorem applied to a graph holding `e1, e2` and one
relationship targeting the absent identifier `"e99"`. -/
theorem C6_witness :
    (∃ msg, GraphData.mk_checked [entE1, entE2] [relBadTarget] [] =
      .error msg) ∧
    (([entE1, entE2].map (·.id)).Nodup →
      ∃ bad, bad ∉ [entE1, entE2].map (·.id) ∧
        (GraphData.mk_checked [entE1, entE2] [relBadTarget] [] =
          .error (str "Invalid source entity: " ++ bad) ∨
         GraphData.mk_checked [entE1, entE2] [relBadTarget] [] =
          .error (str "Invalid target entity: " ++ bad))) :=
  C6_dangling_reference [entE1, entE2] [relBadTarget] [] relBadTarget
    (by decide) (Or.inr (by decide))

/-- C10: `GraphExtraction` construction performs no validation at all — any
entity list (even with duplicate identifiers), any relationship list (even
referencing identifiers absent from its own entity list) and any chunk
identifier are accepted and stored as given; in particular a concrete
extraction with duplicated `"e1"` entities and a relationship referencing
the absent `"e99"` is accepted. -/
theorem C10_graph_extraction_no_cross_validation :
    (∀ (es : List Entity) (rs : List Relationship) (cid : PyStr),
        GraphExtraction.mk_checked es rs cid = .ok ⟨es, rs, cid⟩) ∧
    GraphExtraction.mk_checked [entE1, entE1dup] [relBadTarget] (str "c1") =
      .ok ⟨[entE1, entE1dup], [relBadTarget], str "c1"⟩ :=
  ⟨fun _ _ _ => rfl, rfl⟩

/-- C3: `merge_extraction` appends the extraction's entities to the node set
and its relationships to the edge set; a colliding incoming entity identifier
is an error; on success the edges were validated against the post-append
node set; the spec's concrete scenario (graph `e1, e2` plus one `e1 → e2`
relationship, no new entities) succeeds with 2 nodes and 1 edge; and a
relationship in the batch may reference an entity introduced by the same
batch. -/
theorem C3_merge_extraction :
    (∀ (g : GraphData) (ext : GraphExtraction),
        (∃ e ∈ ext.entities, e.id ∈ g.entities.map (·.id)) →
        ∃ msg, merge_extraction g ext = .error msg) ∧
    (∀ (g : GraphData) (ext : GraphExtraction) (gm : GraphData),
        merge_extraction g ext = .ok gm →
        gm.entities = g.entities ++ ext.entities ∧
        gm.relationships = g.relationships ++ ext.relationships ∧
        ∀ r ∈ gm.relationships, r.source ∈ gm.entities.map (·.id) ∧
          r.target ∈ gm.entities.map (·.id)) ∧
    (merge_extraction ⟨[entE1, entE2], [], []⟩ ⟨[], [relE1E2], str "c1"⟩ =
        .ok ⟨[entE1, entE2], [relE1E2], []⟩ ∧
      [entE1, entE2].length = 2 ∧ [relE1E2].length = 1) ∧
    merge_extraction ⟨[entE1], [], []⟩ ⟨[entE2], [relE1E2], str "c1"⟩ =
      .ok ⟨[entE1, entE2], [relE1E2], []⟩ := by
  refine ⟨?_, ?_, ⟨rfl, rfl, rfl⟩, rfl⟩
  · rintro g ext ⟨e, he, hid⟩
    refine ⟨_, GraphData.mk_checked_error_of_not_nodup _ _ ?_⟩
    intro hn
    rw [List.map_append] at hn
    exact (List.nodup_append.mp hn).2.2 hid (List.mem_map_of_mem _ he)
  · intro g ext gm h
    have hrefs := GraphData.mk_checked_ok_refs h
    have hshape := GraphData.mk_checked_ok_shape h
    subst hshape
    exact ⟨rfl, rfl, hrefs⟩

/-- C3 witness: the collision case applied to a graph holding `e1` and an
extraction re-introducing `e1`, and the post-append characterisation applied
to the spec scenario. -/
theorem C3_witness :
    (∃ msg, merge_extraction ⟨[entE1], [], []⟩ ⟨[entE1dup], [], str "c2"⟩ =
      .error msg) ∧
    ((⟨[entE1, entE2], [relE1E2], []⟩ : GraphData).entities =
        [entE1, entE2] ++ ([] : List Entity) ∧
     (⟨[entE1, entE2], [relE1E2], []⟩ : GraphData).relationships =
        ([] : List Relationship) ++ [relE1E2] ∧
     ∀ r ∈ (⟨[entE1, entE2], [relE1E2], []⟩ : GraphData).relationships,
        r.source ∈
          ((⟨[entE1, entE2], [relE1E2], []⟩ : GraphData).entities.map
            (·.id)) ∧
        r.target ∈
          ((⟨[entE1, entE2], [relE1E2], []⟩ : GraphData).entities.map
            (·.id))) :=
  ⟨C3_merge_extraction.1 ⟨[entE1], [], []⟩ ⟨[entE1dup], [], str "c2"⟩
      ⟨entE1dup, by decide, by decide⟩,
   C3_merge_extraction.2.1 ⟨[entE1, entE2], [], []⟩
      ⟨[], [relE1E2], str "c1"⟩ ⟨[entE1, entE2], [relE1E2], []⟩ rfl⟩

/-- C4 counterexample: for the duplicate-identifier violation the error is
the fixed message "Duplicate entity IDs found", which does not contain the
offending identifier `"e1"` — refuting the claim's assertion that the first
violation is always reported with an error naming the offending
identifier. -/
theorem C4_counterexample :
    GraphData.mk_checked [entE1, entE1dup] [] [] =
      .error (str "Duplicate entity IDs found") ∧
    ¬ (str "e1" <:+: str "Duplicate entity IDs found") := by
  refine ⟨rfl, fun h => ?_⟩
  exact absurd (h.sublist.subset (by decide : (49 : Nat) ∈ str "e1"))
    (by decide)

/-- C4 (amended): `GraphData` construction checks node-identifier uniqueness
before edge referential integrity, and within edge validation checks each
relationship's source before its target, failing on the first violation
found; the dangling-reference errors report the offending identifier, while
the duplicate-identifier error is a fixed message without it; and the error
produced for a given input is unique (deterministic). -/
theorem C4_validation_order :
    (∀ (es : List Entity) (rs : List Relationship) (md : PyDict),
        ¬ (es.map (·.id)).Nodup →
        GraphData.mk_checked es rs md =
          .error (str "Duplicate entity IDs found")) ∧
    (∀ (es : List Entity) (pre : List Relationship) (r : Relationship)
        (rest : List Relationship) (md : PyDict),
        (es.map (·.id)).Nodup →
        (∀ r' ∈ pre, r'.source ∈ es.map (·.id) ∧
          r'.target ∈ es.map (·.id)) →
        r.source ∉ es.map (·.id) →
        GraphData.mk_checked es (pre ++ r :: rest) md =
          .error (str "Invalid source entity: " ++ r.source)) ∧
    (∀ (es : List Entity) (pre : List Relationship) (r : Relationship)
        (rest : List Relationship) (md : PyDict),
        (es.map (·.id)).Nodup →
        (∀ r' ∈ pre, r'.source ∈ es.map (·.id) ∧
          r'.target ∈ es.map (·.id)) →
        r.source ∈ es.map (·.id) → r.target ∉ es.map (·.id) →
        GraphData.mk_checked es (pre ++ r :: rest) md =
          .error (str "Invalid target entity: " ++ r.target)) ∧
    (∀ (es : List Entity) (rs : List Relationship) (md : PyDict)
        (e₁ e₂ : PyStr), GraphData.mk_checked es rs md = .error e₁ →
        GraphData.mk_checked es rs md = .error e₂ → e₁ = e₂) := by
  refine ⟨?_, ?_, ?_, ?_⟩
  · intro es rs md hn
    exact GraphData.mk_checked_error_of_not_nodup rs md hn
  · intro es pre r rest md hn hpre hs
    simp only [GraphData.mk_checked, validate_unique_entities_ok hn,
      validate_relationship_references_first_source _ pre r rest hpre hs]
  · intro es pre r rest md hn hpre hs ht
    simp only [GraphData.mk_checked, validate_unique_entities_ok hn,
      validate_relationship_references_first_target _ pre r rest hpre hs ht]
  · intro es rs md e₁ e₂ h1 h2
    injection h1.symm.trans h2

/-- C4 witness: the amended theorem applied to a duplicate-identifier input,
a first-relationship bad source, and a first-relationship bad target. -/
theorem C4_witness :
    GraphData.mk_checked [entE1, entE1dup] [relE1E2] [] =
      .error (str "Duplicate entity IDs found") ∧
    GraphData.mk_checked [entE1, entE2] ([] ++ relBadSource :: []) [] =
      .error (str "Invalid source entity: " ++ relBadSource.source) ∧
    GraphData.mk_checked [entE1, entE2] ([] ++ relBadTarget :: []) [] =
      .error (str "Invalid target entity: " ++ relBadTarget.target) :=
  ⟨C4_validation_order.1 [entE1, entE1dup] [relE1E2] [] (by decide),
   C4_validation_order.2.1 [entE1, entE2] [] relBadSource [] []
     (by decide) (by simp) (by decide),
   C4_validation_order.2.2.1 [entE1, entE2] [] relBadTarget [] []
     (by decide) (by simp) (by decide) (by decide)⟩

/-- C7: `GraphSchema` type-list normalization trims, upper-cases and drops
empty-after-trim items; two items normalizing to the same value are a
duplicate-type error; the same normalization is applied to `entity_types`
and `relationship_types`; a validated schema's type lists are
pairwise-distinct and upper-case; and `["person", "Person"]` is rejected. -/
theorem C7_schema_type_normalization :
    (∀ (v out : List PyStr), validate_unique_types v = .ok out →
        out = (v.filter
            (fun item => !item.isEmpty && !(pyStrip item).isEmpty)).map
          (fun item => pyUpper (pyStrip item)) ∧
        out.Nodup ∧ ∀ s ∈ out, pyUpper s = s) ∧
    (∀ v : List PyStr,
        ¬ ((v.filter
            (fun item => !item.isEmpty && !(pyStrip item).isEmpty)).map
          (fun item => pyUpper (pyStrip item))).Nodup →
        validate_unique_types v = .error (str "Duplicate types found")) ∧
    (∀ (et rt : List PyStr) (p : PyStr) (g : GraphSchema),
        GraphSchema.mk_checked et rt p = .ok g →
        validate_unique_types et = .ok g.entity_types ∧
        validate_unique_types rt = .ok g.relationship_types) ∧
    GraphSchema.mk_checked [str "person", str "Person"] [] (str "prompt") =
      .error (str "Duplicate types found") := by
  refine ⟨?_, ?_, ?_, rfl⟩
  · intro v out h
    obtain ⟨heq, hnd⟩ := (validate_unique_types_ok_iff v out).mp h
    refine ⟨heq, hnd, ?_⟩
    intro s hs
    rw [heq] at hs
    obtain ⟨item, _, rfl⟩ := List.mem_map.mp hs
    exact pyUpper_idem _
  · intro v hd
    exact validate_unique_types_error hd
  · intro et rt p g h
    cases h1 : validate_unique_types et with
    | error e =>
      simp only [GraphSchema.mk_checked, h1] at h
      exact Except.noConfusion h
    | ok et' =>
      cases h2 : validate_unique_types rt with
      | error e =>
        simp only [GraphSchema.mk_checked, h1, h2] at h
        exact Except.noConfusion h
      | ok rt' =>
        cases h3 : validate_non_empty (str "Extraction prompt cannot be empty")
            p with
        | error e =>
          simp only [GraphSchema.mk_checked, h1, h2, h3] at h
          exact Except.noConfusion h
        | ok p' =>
          simp only [GraphSchema.mk_checked, h1, h2, h3] at h
          cases h
          exact ⟨rfl, rfl⟩

/-- C7 witness: the theorem applied to `["person"]` (success case), to
`["person", "Person"]` (duplicate case), and to a concrete validated
schema. -/
theorem C7_witness :
    ([str "PERSON"] =
        (([str "person"] : List PyStr).filter
            (fun item => !item.isEmpty && !(pyStrip item).isEmpty)).map
          (fun item => pyUpper (pyStrip item)) ∧
      ([str "PERSON"] : List PyStr).Nodup ∧
      ∀ s ∈ ([str "PERSON"] : List PyStr), pyUpper s = s) ∧
    validate_unique_types [str "person", str "Person"] =
      .error (str "Duplicate types found") ∧
    (validate_unique_types [str "a"] =
        .ok (⟨[str "A"], [str "B"], str "p"⟩ : GraphSchema).entity_types ∧
     validate_unique_types [str "b"] =
        .ok (⟨[str "A"], [str "B"], str "p"⟩ :
          GraphSchema).relationship_types) :=
  ⟨C7_schema_type_normalization.1 [str "person"] [str "PERSON"] rfl,
   C7_schema_type_normalization.2.1 [str "person", str "Person"] (by decide),
   C7_schema_type_normalization.2.2.1 [str "a"] [str "b"] (str "p")
     ⟨[str "A"], [str "B"], str "p"⟩ rfl⟩

/-- C8: `ArticleMetadata` trims each tag/category, drops empty-after-trim
items, preserves the order of the kept items, and never rejects duplicates;
`["  ai ", "", "ml"]` is stored as `["ai", "ml"]` and a duplicated tag list
is stored unchanged. -/
theorem C8_metadata_list_cleaning :
    (∀ (a pd : Option PyStr) (wc rt : Option Int) (tags cats : List PyStr),
        (∀ n ∈ wc, (0 : Int) ≤ n) → (∀ n ∈ rt, (0 : Int) ≤ n) →
        ArticleMetadata.mk_checked a pd wc rt tags cats =
          .ok ⟨a, pd, wc, rt, clean_list_items tags,
               clean_list_items cats⟩) ∧
    (∀ tags : List PyStr,
        List.Sublist (clean_list_items tags) (tags.map pyStrip)) ∧
    ArticleMetadata.mk_checked none none none none
        [str "  ai ", str "", str "ml"] [] =
      .ok ⟨none, none, none, none, [str "ai", str "ml"], []⟩ ∧
    ArticleMetadata.mk_checked none none none none [str "ai", str "ai"] [] =
      .ok ⟨none, none, none, none, [str "ai", str "ai"], []⟩ := by
  refine ⟨?_, ?_, rfl, rfl⟩
  · intro a pd wc rt tags cats hwc hrt
    have h1 : wc.any (fun n => decide (n < 0)) = false := by
      cases wc with
      | none => rfl
      | some n => simpa using not_lt.mpr (hwc n rfl)
    have h2 : rt.any (fun n => decide (n < 0)) = false := by
      cases rt with
      | none => rfl
      | some n => simpa using not_lt.mpr (hrt n rfl)
    simp only [ArticleMetadata.mk_checked, h1, h2, Bool.false_eq_true,
      if_false]
  · intro tags
    exact (List.filter_sublist _).map pyStrip

/-- C8 witness: the general cleaning statement applied at concrete inputs
with numeric fields present. -/
theorem C8_witness :
    ArticleMetadata.mk_checked none none (some 100) (some 5)
        [str " x "] [str ""] =
      .ok ⟨none, none, some 100, some 5, clean_list_items [str " x "],
           clean_list_items [str ""]⟩ :=
  C8_metadata_list_cleaning.1 none none (some 100) (some 5) [str " x "]
    [str ""] (by simp) (by simp)

/-- C9: explicitly supplied identifier fields (`Entity.id`,
`Relationship.id`, `TextChunk.chunk_id`) undergo no validation or
normalization — any value, including empty or whitespace-carrying ones, is
stored exactly as given whenever the validated fields pass. -/
theorem C9_identifier_passthrough :
    (∀ (id name ty : PyStr) (props : PyDict) (m : Int),
        pyStrip name ≠ [] → pyStrip ty ≠ [] → ¬ m < 1 →
        Entity.mk_checked id name ty props m =
          .ok ⟨id, pyStrip name, pyStrip ty, props, m⟩) ∧
    (∀ (id s t rt : PyStr) (props : PyDict),
        pyStrip s ≠ [] → pyStrip t ≠ [] → pyStrip rt ≠ [] →
        Relationship.mk_checked id s t rt props =
          .ok ⟨id, pyStrip s, pyStrip t, pyStrip rt, props⟩) ∧
    (∀ (cid text : PyStr) (pos tc : Int) (url : PyStr),
        pyStrip text ≠ [] → ¬ pos < 0 → ¬ tc < 0 →
        TextChunk.mk_checked cid text pos tc url =
          .ok ⟨cid, pyStrip text, pos, tc, url⟩) := by
  refine ⟨?_, ?_, ?_⟩
  · intro id name ty props m h1 h2 hm
    simp only [Entity.mk_checked, validate_non_empty_ok _ h1,
      validate_non_empty_ok _ h2]
    rw [if_neg hm]
  · intro id s t rt props h1 h2 h3
    simp only [Relationship.mk_checked, validate_non_empty_ok _ h1,
      validate_non_empty_ok _ h2, validate_non_empty_ok _ h3]
  · intro cid text pos tc url h1 hp ht
    simp only [TextChunk.mk_checked, validate_non_empty_ok _ h1]
    rw [if_neg hp, if_neg ht]

/-- C9 witness: an empty `Entity.id`, a whitespace-carrying
`Relationship.id` and a whitespace-only `TextChunk.chunk_id` all stored
verbatim. -/
theorem C9_witness :
    Entity.mk_checked [] (str "Alice") (str "PERSON") [] 1 =
      .ok ⟨[], pyStrip (str "Alice"), pyStrip (str "PERSON"), [], 1⟩ ∧
    Relationship.mk_checked (str "  r1 ") (str "e1") (str "e2")
        (str "REL") [] =
      .ok ⟨str "  r1 ", pyStrip (str "e1"), pyStrip (str "e2"),
           pyStrip (str "REL"), []⟩ ∧
    TextChunk.mk_checked (str "   ") (str "body") 0 3 (str "u") =
      .ok ⟨str "   ", pyStrip (str "body"), 0, 3, str "u"⟩ :=
  ⟨C9_identifier_passthrough.1 [] (str "Alice") (str "PERSON") [] 1
      (by decide) (by decide) (by decide),
   C9_identifier_passthrough.2.1 (str "  r1 ") (str "e1") (str "e2")
      (str "REL") [] (by decide) (by decide) (by decide),
   C9_identifier_passthrough.2.2 (str "   ") (str "body") 0 3 (str "u")
      (by decide) (by decide) (by decide)⟩

/-- C2 counterexample: `ScrapingFailure` accepts an empty `url` (the claim
says every required string field rejects empty values), and `TextChunk`
stores a `source_url` carrying surrounding whitespace verbatim (the claim
says stored values are trimmed). -/
theorem C2_counterexample :
    ScrapingFailure.mk_checked 0 [] (str "example.com") (str "timeout")
        none none =
      .ok ⟨0, [], str "example.com", str "timeout", none, none⟩ ∧
    TextChunk.mk_checked (str "c1") (str "body") 0 1 (str "  spaced  ") =
      .ok ⟨str "c1", str "body", 0, 1, str "  spaced  "⟩ :=
  ⟨rfl, rfl⟩

/-- C2 (amended): the fields that carry a non-empty validator
(`ArticleContent.url/title/text`, `TextChunk.text`, `Entity.name/type`,
`Relationship.source/target/relationship_type`,
`GraphSchema.extraction_prompt`) reject empty-after-strip values with the
validator's error and store the stripped value on success; the remaining
required string fields (`ScrapingFailure.url/domain/failure_type`,
`TextChunk.source_url/chunk_id`) are accepted without validation and stored
untrimmed. -/
theorem C2_string_field_validation :
    (∀ (url title text : PyStr) (a : Option PyStr) (pd : Option Nat)
        (md : PyDict), pyStrip url = [] →
        ArticleContent.mk_checked url title text a pd md =
          .error (str "URL cannot be empty")) ∧
    (∀ (url title text : PyStr) (a : Option PyStr) (pd : Option Nat)
        (md : PyDict), pyStrip url ≠ [] → pyStrip title = [] →
        ArticleContent.mk_checked url title text a pd md =
          .error (str "Field cannot be empty")) ∧
    (∀ (url title text : PyStr) (a : Option PyStr) (pd : Option Nat)
        (md : PyDict), pyStrip url ≠ [] → pyStrip title ≠ [] →
        pyStrip text = [] →
        ArticleContent.mk_checked url title text a pd md =
          .error (str "Field cannot be empty")) ∧
    (∀ (url title text : PyStr) (a : Option PyStr) (pd : Option Nat)
        (md : PyDict), pyStrip url ≠ [] → pyStrip title ≠ [] →
        pyStrip text ≠ [] →
        ArticleContent.mk_checked url title text a pd md =
          .ok ⟨pyStrip url, pyStrip title, pyStrip text, a, pd, md⟩) ∧
    (∀ (cid text : PyStr) (pos tc : Int) (u : PyStr), pyStrip text = [] →
        TextChunk.mk_checked cid text pos tc u =
          .error (str "Text chunk cannot be empty")) ∧
    (∀ (cid text : PyStr) (pos tc : Int) (u : PyStr), pyStrip text ≠ [] →
        ¬ pos < 0 → ¬ tc < 0 →
        TextChunk.mk_checked cid text pos tc u =
          .ok ⟨cid, pyStrip text, pos, tc, u⟩) ∧
    (∀ (id name ty : PyStr) (props : PyDict) (m : Int), pyStrip name = [] →
        Entity.mk_checked id name ty props m =
          .error (str "Field cannot be empty")) ∧
    (∀ (id name ty : PyStr) (props : PyDict) (m : Int), pyStrip name ≠ [] →
        pyStrip ty = [] →
        Entity.mk_checked id name ty props m =
          .error (str "Field cannot be empty")) ∧
    (∀ (id name ty : PyStr) (props : PyDict) (m : Int), pyStrip name ≠ [] →
        pyStrip ty ≠ [] → ¬ m < 1 →
        Entity.mk_checked id name ty props m =
          .ok ⟨id, pyStrip name, pyStrip ty, props, m⟩) ∧
    (∀ (id s t rt : PyStr) (props : PyDict), pyStrip s = [] →
        Relationship.mk_checked id s t rt props =
          .error (str "Field cannot be empty")) ∧
    (∀ (id s t rt : PyStr) (props : PyDict), pyStrip s ≠ [] →
        pyStrip t = [] →
        Relationship.mk_checked id s t rt props =
          .error (str "Field cannot be empty")) ∧
    (∀ (id s t rt : PyStr) (props : PyDict), pyStrip s ≠ [] →
        pyStrip t ≠ [] → pyStrip rt = [] →
        Relationship.mk_checked id s t rt props =
          .error (str "Field cannot be empty")) ∧
    (∀ (id s t rt : PyStr) (props : PyDict), pyStrip s ≠ [] →
        pyStrip t ≠ [] → pyStrip rt ≠ [] →
        Relationship.mk_checked id s t rt props =
          .ok ⟨id, pyStrip s, pyStrip t, pyStrip rt, props⟩) ∧
    (∀ (et rt : List PyStr) (p : PyStr) (et' rt' : List PyStr),
        validate_unique_types et = .ok et' →
        validate_unique_types rt = .ok rt' → pyStrip p = [] →
        GraphSchema.mk_checked et rt p =
          .error (str "Extraction prompt cannot be empty")) ∧
    (∀ (et rt : List PyStr) (p : PyStr) (et' rt' : List PyStr),
        validate_unique_types et = .ok et' →
        validate_unique_types rt = .ok rt' → pyStrip p ≠ [] →
        GraphSchema.mk_checked et rt p = .ok ⟨et', rt', pyStrip p⟩) ∧
    (∀ (ts : Nat) (url domain ft : PyStr) (hs : Option Int)
        (em : Option PyStr),
        ScrapingFailure.mk_checked ts url domain ft hs em =
          .ok ⟨ts, url, domain, ft, hs, em⟩) := by
  refine ⟨?_, ?_, ?_, ?_, ?_, ?_, ?_, ?_, ?_, ?_, ?_, ?_, ?_, ?_, ?_, ?_⟩
  · intro url title text a pd md h
    simp only [ArticleContent.mk_checked, validate_non_empty_error _ h]
  · intro url title text a pd md h1 h2
    simp only [ArticleContent.mk_checked, validate_non_empty_ok _ h1,
      validate_non_empty_error _ h2]
  · intro url title text a pd md h1 h2 h3
    simp only [ArticleContent.mk_checked, validate_non_empty_ok _ h1,
      validate_non_empty_ok _ h2, validate_non_empty_error _ h3]
  · intro url title text a pd md h1 h2 h3
    simp only [ArticleContent.mk_checked, validate_non_empty_ok _ h1,
      validate_non_empty_ok _ h2, validate_non_empty_ok _ h3]
  · intro cid text pos tc u h
    simp only [TextChunk.mk_checked, validate_non_empty_error _ h]
  · intro cid text pos tc u h1 hp ht
    simp only [TextChunk.mk_checked, validate_non_empty_ok _ h1]
    rw [if_neg hp, if_neg ht]
  · intro id name ty props m h
    simp only [Entity.mk_checked, validate_non_empty_error _ h]
  · intro id name ty props m h1 h2
    simp only [Entity.mk_checked, validate_non_empty_ok _ h1,
      validate_non_empty_error _ h2]
  · intro id name ty props m h1 h2 hm
    simp only [Entity.mk_checked, validate_non_empty_ok _ h1,
      validate_non_empty_ok _ h2]
    rw [if_neg hm]
  · intro id s t rt props h
    simp only [Relationship.mk_checked, validate_non_empty_error _ h]
  · intro id s t rt props h1 h2
    simp only [Relationship.mk_checked, validate_non_empty_ok _ h1,
      validate_non_empty_error _ h2]
  · intro id s t rt props h1 h2 h3
    simp only [Relationship.mk_checked, validate_non_empty_ok _ h1,
      validate_non_empty_ok _ h2, validate_non_empty_error _ h3]
  · intro id s t rt props h1 h2 h3
    simp only [Relationship.mk_checked, validate_non_empty_ok _ h1,
      validate_non_empty_ok _ h2, validate_non_empty_ok _ h3]
  · intro et rt p et' rt' h1 h2 h3
    simp only [GraphSchema.mk_checked, h1, h2,
      validate_non_empty_error _ h3]
  · intro et rt p et' rt' h1 h2 h3
    simp only [GraphSchema.mk_checked, h1, h2, validate_non_empty_ok _ h3]
  · intro ts url domain ft hs em
    rfl

/-- C2 witness: the amended theorem applied at concrete inputs — rejection
of whitespace-only values and trimming of whitespace-carrying values for
each validated field group, and verbatim acceptance by `ScrapingFailure`. -/
theorem C2_witness :
    ArticleContent.mk_checked (str "   ") (str "t") (str "x") none none [] =
      .error (str "URL cannot be empty") ∧
    ArticleContent.mk_checked (str "u") (str " ") (str "x") none none [] =
      .error (str "Field cannot be empty") ∧
    ArticleContent.mk_checked (str "u") (str "t") [] none none [] =
      .error (str "Field cannot be empty") ∧
    ArticleContent.mk_checked (str " u ") (str " t ") (str " x ") none none
        [] =
      .ok ⟨pyStrip (str " u "), pyStrip (str " t "), pyStrip (str " x "),
           none, none, []⟩ ∧
    TextChunk.mk_checked (str "c") (str "  ") 0 1 (str "u") =
      .error (str "Text chunk cannot be empty") ∧
    TextChunk.mk_checked (str "c") (str " body ") 0 1 (str "u") =
      .ok ⟨str "c", pyStrip (str " body "), 0, 1, str "u"⟩ ∧
    Entity.mk_checked (str "e") (str "  ") (str "T") [] 1 =
      .error (str "Field cannot be empty") ∧
    Entity.mk_checked (str "e") (str "N") (str "  ") [] 1 =
      .error (str "Field cannot be empty") ∧
    Entity.mk_checked (str "e") (str " N ") (str " T ") [] 2 =
      .ok ⟨str "e", pyStrip (str " N "), pyStrip (str " T "), [], 2⟩ ∧
    Relationship.mk_checked (str "r") (str " ") (str "t") (str "T") [] =
      .error (str "Field cannot be empty") ∧
    Relationship.mk_checked (str "r") (str "s") (str " ") (str "T") [] =
      .error (str "Field cannot be empty") ∧
    Relationship.mk_checked (str "r") (str "s") (str "t") (str " ") [] =
      .error (str "Field cannot be empty") ∧
    Relationship.mk_checked (str "r") (str " s ") (str " t ") (str " T ")
        [] =
      .ok ⟨str "r", pyStrip (str " s "), pyStrip (str " t "),
           pyStrip (str " T "), []⟩ ∧
    GraphSchema.mk_checked [str "a"] [str "b"] (str "  ") =
      .error (str "Extraction prompt cannot be empty") ∧
    GraphSchema.mk_checked [str "a"] [str "b"] (str " p ") =
      .ok ⟨[str "A"], [str "B"], pyStrip (str " p ")⟩ ∧
    ScrapingFailure.mk_checked 7 (str " u ") [] (str "f") none none =
      .ok ⟨7, str " u ", [], str "f", none, none⟩ :=
  ⟨C2_string_field_validation.1 (str "   ") (str "t") (str "x") none none
      [] (by decide),
   C2_string_field_validation.2.1 (str "u") (str " ") (str "x") none none
      [] (by decide) (by decide),
   C2_string_field_validation.2.2.1 (str "u") (str "t") [] none none []
      (by decide) (by decide) (by decide),
   C2_string_field_validation.2.2.2.1 (str " u ") (str " t ") (str " x ")
      none none [] (by decide) (by decide) (by decide),
   C2_string_field_validation.2.2.2.2.1 (str "c") (str "  ") 0 1 (str "u")
      (by decide),
   C2_string_field_validation.2.2.2.2.2.1 (str "c") (str " body ") 0 1
      (str "u") (by decide) (by decide) (by decide),
   C2_string_field_validation.2.2.2.2.2.2.1 (str "e") (str "  ") (str "T")
      [] 1 (by decide),
   C2_string_field_validation.2.2.2.2.2.2.2.1 (str "e") (str "N")
      (str "  ") [] 1 (by decide) (by decide),
   C2_string_field_validation.2.2.2.2.2.2.2.2.1 (str "e") (str " N ")
      (str " T ") [] 2 (by decide) (by decide) (by decide),
   C2_string_field_validation.2.2.2.2.2.2.2.2.2.1 (str "r") (str " ")
      (str "t") (str "T") [] (by decide),
   C2_string_field_validation.2.2.2.2.2.2.2.2.2.2.1 (str "r") (str "s")
      (str " ") (str "T") [] (by decide) (by decide),
   C2_string_field_validation.2.2.2.2.2.2.2.2.2.2.2.1 (str "r") (str "s")
      (str "t") (str " ") [] (by decide) (by decide) (by decide),
   C2_string_field_validation.2.2.2.2.2.2.2.2.2.2.2.2.1 (str "r")
      (str " s ") (str " t ") (str " T ") [] (by decide) (by decide)
      (by decide),
   C2_string_field_validation.2.2.2.2.2.2.2.2.2.2.2.2.2.1 [str "a"]
      [str "b"] (str "  ") [str "A"] [str "B"] rfl rfl (by decide),
   C2_string_field_validation.2.2.2.2.2.2.2.2.2.2.2.2.2.2.1 [str "a"]
      [str "b"] (str " p ") [str "A"] [str "B"] rfl rfl (by decide),
   C2_string_field_validation.2.2.2.2.2.2.2.2.2.2.2.2.2.2.2 7 (str " u ")
      [] (str "f") none none⟩

end ArticleAtlas
